import Mathlib

/-!
Shallow embedding of the two correctness engines of the bookIT platform:
the booking scheduler (`app/services/booking_crud.py`, `app/schemas/booking_schema.py`)
and the session / token lifecycle engine (`app/security/auth.py`,
`app/utils/token_blacklist.py`, `app/utils/user_app_service.py`).

Times (`datetime`) are modelled as `Int`; ids (UUID strings) as `String`.
The SQLAlchemy session is modelled as explicit lists of rows passed in and
returned; a `db.commit()` that succeeds replaces the list, a rollback keeps
the old one.  HTTP error responses are modelled by inductive error types,
with the HTTP status code noted at each constructor.
-/

namespace BookIT

/-- Booking status values, `app/schemas/booking_schema.py` `BookingStatus`. -/
inductive BStatus
  | pending
  | confirmed
  | cancelled
  | completed
deriving DecidableEq

/-- A row of the `bookings` table, `app/models/booking_model.py`. -/
structure Booking where
  id : String
  user_id : String
  service_id : String
  start_time : Int
  end_time : Int
  status : BStatus
  created_at : Int
deriving DecidableEq

/-- A row of the `services` table (only the fields the booking engine reads). -/
structure Service where
  id : String
  is_active : Bool
deriving DecidableEq

/-- Request body of `POST /bookings`, `BookingCreate` in `booking_schema.py`. -/
structure BookingCreate where
  service_id : String
  start_time : Int
  end_time : Int
deriving DecidableEq

/-- Patch body of `PATCH /bookings/{id}`, `BookingUpdate` in `booking_schema.py`.
`none` stands for a field that is absent or explicitly `null`: `update_booking`
applies `model_dump(exclude_unset=True)` and then skips values that are `None`,
so absent and null fields are treated identically (neither is written). -/
structure BookingUpdate where
  start_time : Option Int
  end_time : Option Int
  status : Option BStatus
deriving DecidableEq

/-- Error outcomes of the booking engine, named after the spec taxonomy.
`NotFound` = HTTP 404, `Forbidden` = 403, `InvalidTransition` = the 400
"Can only reschedule/cancel pending or confirmed bookings" responses,
`Conflict` = 409, `InvalidInterval` = the pydantic validation failure (422)
raised by the validators of `BookingBase`, `TooLate` = the 400 response of
`delete_booking`, `Unavailable` = HTTP 500. -/
inductive BookingError
  | NotFound
  | Forbidden
  | InvalidTransition
  | Conflict
  | InvalidInterval
  | TooLate
  | Unavailable
deriving DecidableEq

/-- The three-way disjunction of `BookingCRUD._has_time_conflict`
(`booking_crud.py` lines 79-90), with `S`,`E` the stored `Booking.start_time`/`Booking.end_time` and `s`,`e` the candidate window:
`(S <= s and s < E) or (S < e and e <= E) or (s <= S and E <= e)`. -/
def overlapCond (S E s e : Int) : Bool :=
  (decide (S ≤ s) && decide (s < E)) ||
  (decide (S < e) && decide (e ≤ E)) ||
  (decide (s ≤ S) && decide (E ≤ e))

/-- The row filter of `_has_time_conflict`: same service, status in
{pending, confirmed}, the overlap disjunction, and (when updating) not the
excluded booking itself. -/
def conflictsWith (b : Booking) (service_id : String) (s e : Int)
    (exclude_booking_id : Option String) : Bool :=
  b.service_id == service_id &&
  (b.status == BStatus.pending || b.status == BStatus.confirmed) &&
  overlapCond b.start_time b.end_time s e &&
  (match exclude_booking_id with
   | none => true
   | some bid => b.id != bid)

/-- Models `BookingCRUD._has_time_conflict`: true iff some stored booking matches
the conflict filter. -/
def has_time_conflict (bookings : List Booking) (service_id : String)
    (start_time end_time : Int) (exclude_booking_id : Option String) : Bool :=
  bookings.any (fun b => conflictsWith b service_id start_time end_time exclude_booking_id)

/-- Models `BookingBase.start_time_must_be_in_future` (`booking_schema.py` 20-30):
rejects unless `now < start_time`. -/
def start_time_must_be_in_future (now start_time : Int) : Bool :=
  decide (now < start_time)

/-- Models `BookingBase.end_time_must_be_after_start_time` (`booking_schema.py` 32-36):
rejects unless `start_time < end_time`. -/
def end_time_must_be_after_start_time (start_time end_time : Int) : Bool :=
  decide (start_time < end_time)

/-- Models `BookingCRUD.create_booking` (`booking_crud.py` 16-64), composed with the
pydantic validators of `BookingCreate` that FastAPI runs on the request body
before the CRUD layer is reached (so an invalid interval is rejected before
the service lookup).  `new_id` and `created_at` model the store-generated
primary key and timestamp; `now` is the clock.  On success returns the new
table contents and the created row. -/
def create_booking (now : Int) (services : List Service) (bookings : List Booking)
    (booking : BookingCreate) (user_id : String) (new_id : String) (created_at : Int) :
    Except BookingError (List Booking × Booking) :=
  if !start_time_must_be_in_future now booking.start_time then
    Except.error BookingError.InvalidInterval
  else if !end_time_must_be_after_start_time booking.start_time booking.end_time then
    Except.error BookingError.InvalidInterval
  else if !(services.any (fun sv => sv.id == booking.service_id && sv.is_active)) then
    Except.error BookingError.NotFound
  else if has_time_conflict bookings booking.service_id booking.start_time booking.end_time none then
    Except.error BookingError.Conflict
  else
    let db_booking : Booking :=
      { id := new_id, user_id := user_id, service_id := booking.service_id,
        start_time := booking.start_time, end_time := booking.end_time,
        status := BStatus.pending, created_at := created_at }
    Except.ok (bookings ++ [db_booking], db_booking)

/-- Models `BookingCRUD.update_booking` (`booking_crud.py` 150-236).
`user_id = none` models Python `None`; `str(None) = "None"` is a truthy
string, so the ownership check compares against `"None"` in that case,
exactly as the source does.  On success returns the new table contents and
the updated row. -/
def update_booking (bookings : List Booking) (booking_id : String)
    (booking_update : BookingUpdate) (user_id : Option String) (is_admin : Bool) :
    Except BookingError (List Booking × Booking) :=
  let user_id_str : String := match user_id with
    | none => "None"
    | some s => s
  match bookings.find? (fun b => b.id == booking_id) with
  | none => Except.error BookingError.NotFound
  | some db_booking =>
    if !is_admin && db_booking.user_id != user_id_str then
      Except.error BookingError.Forbidden
    else if (booking_update.start_time.isSome || booking_update.end_time.isSome)
        && !is_admin
        && !(db_booking.status == BStatus.pending || db_booking.status == BStatus.confirmed) then
      Except.error BookingError.InvalidTransition
    else if booking_update.status == some BStatus.cancelled
        && !is_admin
        && !(db_booking.status == BStatus.pending || db_booking.status == BStatus.confirmed) then
      Except.error BookingError.InvalidTransition
    else
      let new_start := booking_update.start_time.getD db_booking.start_time
      let new_end := booking_update.end_time.getD db_booking.end_time
      if (booking_update.start_time.isSome || booking_update.end_time.isSome)
          && has_time_conflict bookings db_booking.service_id new_start new_end (some booking_id) then
        Except.error BookingError.Conflict
      else
        let updated : Booking :=
          { db_booking with
            start_time := new_start,
            end_time := new_end,
            status := booking_update.status.getD db_booking.status }
        Except.ok (bookings.map (fun b => if b.id == booking_id then updated else b), updated)

/-! ## Session / token lifecycle engine -/

/-- A JWT as the session engine sees it: the claims (`sub`, `jti`, `iat`,
`exp`, `type`) plus `sig_ok`, which models whether `jwt.decode` with the
process secret accepts the signature (`jose` also rejects tokens whose `exp`
is in the past).  `typ` is the `type` claim. -/
structure Token where
  sub : Option String
  jti : Option String
  iat : Int
  exp : Int
  typ : String
  sig_ok : Bool
deriving DecidableEq

/-- A row of the `token_blacklist` table, `app/models/token_blacklist.py`:
jti, the raw token (stored for audit), and the expiry supplied at insert. -/
structure LedgerEntry where
  jti : String
  token : Token
  expires_at : Int
deriving DecidableEq

/-- A row of the `users` table (only the fields the session engine reads). -/
structure User where
  id : String
  is_active : Bool
  status : String
  role : String
deriving DecidableEq

/-- Error outcomes of the session engine, named after the spec taxonomy.
`Invalid` = the 401 `credentials_exception` (malformed/unsigned/expired
token, wrong type, missing claim, or unknown/inactive subject), `Revoked` =
the 401 "has been revoked" response, `Forbidden` = 403, `Unavailable` = 500. -/
inductive AuthError
  | Invalid
  | Revoked
  | Forbidden
  | Unavailable
deriving DecidableEq

/-- Models the jose call `jwt.decode(token, SECRET_KEY, algorithms=[ALGORITHM])`:
returns the claims iff the signature verifies and `exp` has not passed,
otherwise raises `JWTError` (modelled as `none`). -/
def jwt_decode (t : Token) (now : Int) : Option Token :=
  if t.sig_ok && decide (now < t.exp) then some t else none

/-- Models `TokenBlacklistService.is_token_blacklisted` (`token_blacklist.py` 44-52):
a jti is revoked iff some ledger row has that jti and `expires_at > now`. -/
def is_token_blacklisted (ledger : List LedgerEntry) (jti : String) (now : Int) : Bool :=
  ledger.any (fun e => e.jti == jti && decide (now < e.expires_at))

/-- Models `TokenBlacklistService.blacklist_token` (`token_blacklist.py` 11-42).
`jwt.get_unverified_claims` reads the jti without checking the signature;
no jti means return without writing.  An existing row with the same jti also
means return without writing.  `write_fails` injects an infrastructure
failure of the `db.add`/`db.commit` pair: the `except` of the function
itself swallows it, rolls back, and returns silently, so the result is
always a ledger and never an error. -/
def blacklist_token (ledger : List LedgerEntry) (token : Token) (expires_at : Int)
    (write_fails : Bool) : List LedgerEntry :=
  match token.jti with
  | none => ledger
  | some jti =>
    if ledger.any (fun e => e.jti == jti) then ledger
    else if write_fails then ledger
    else ledger ++ [{ jti := jti, token := token, expires_at := expires_at }]

/-- Models `TokenBlacklistService.cleanup_expired_tokens` (`token_blacklist.py` 54-71):
deletes the rows with `expires_at <= now`, returning the new table and the
deleted-row count. -/
def cleanup_expired_tokens (ledger : List LedgerEntry) (now : Int) :
    List LedgerEntry × Nat :=
  (ledger.filter (fun e => !decide (e.expires_at ≤ now)),
   (ledger.filter (fun e => decide (e.expires_at ≤ now))).length)

/-- Models `create_access_token` (`auth.py` 50-65): embeds the supplied `sub`, a
fresh uuid4 jti (modelled as the `jti` argument from the ID provider),
`iat = now`, `exp = now + expires_delta`, type tag `access`, signed with the
process secret.  Returns the token and its expiry. -/
def create_access_token (sub : String) (now expires_delta : Int) (jti : String) :
    Token × Int :=
  ({ sub := some sub, jti := some jti, iat := now, exp := now + expires_delta,
     typ := "access", sig_ok := true }, now + expires_delta)

/-- Models `create_refresh_token` (`auth.py` 68-83): same as `create_access_token`
with type tag `refresh`. -/
def create_refresh_token (sub : String) (now expires_delta : Int) (jti : String) :
    Token × Int :=
  ({ sub := some sub, jti := some jti, iat := now, exp := now + expires_delta,
     typ := "refresh", sig_ok := true }, now + expires_delta)

/-- Models `verify_refresh_token` (`auth.py` 86-118): decode and authenticate;
require `sub`, `jti` and type `refresh`; reject `Revoked` if the jti is in
the ledger unexpired; resolve the subject to an active user (an unknown or
inactive subject raises the same `credentials_exception` as a bad token). -/
def verify_refresh_token (token : Token) (now : Int) (users : List User)
    (ledger : List LedgerEntry) : Except AuthError User :=
  match jwt_decode token now with
  | none => Except.error AuthError.Invalid
  | some payload =>
    match payload.sub, payload.jti with
    | some user_id, some jti =>
      if payload.typ != "refresh" then Except.error AuthError.Invalid
      else if is_token_blacklisted ledger jti now then Except.error AuthError.Revoked
      else
        match users.find? (fun u => u.id == user_id && u.is_active) with
        | some user => Except.ok user
        | none => Except.error AuthError.Invalid
    | _, _ => Except.error AuthError.Invalid

/-- Models `get_current_user` (`auth.py` 121-151): the access-token verification,
identical to `verify_refresh_token` but requiring type tag `access`. -/
def get_current_user (token : Token) (now : Int) (users : List User)
    (ledger : List LedgerEntry) : Except AuthError User :=
  match jwt_decode token now with
  | none => Except.error AuthError.Invalid
  | some payload =>
    match payload.sub, payload.jti with
    | some user_id, some jti =>
      if payload.typ != "access" then Except.error AuthError.Invalid
      else if is_token_blacklisted ledger jti now then Except.error AuthError.Revoked
      else
        match users.find? (fun u => u.id == user_id && u.is_active) with
        | some user => Except.ok user
        | none => Except.error AuthError.Invalid
    | _, _ => Except.error AuthError.Invalid

/-- Models `UserService.refresh_access_token` (`user_app_service.py` 102-154):
verify the refresh token; re-check `is_active`; blacklist the old refresh
token under its own `exp` (read via `get_unverified_claims`); issue a new
pair with fresh jtis (`new_access_jti`, `new_refresh_jti` from the ID
provider) and the fixed TTLs (30 minutes, 7 days, in seconds).
`blacklist_write_fails` injects a store failure inside `blacklist_token`,
which that function swallows.  On success returns the new ledger and the
new pair. -/
def refresh_access_token (users : List User) (ledger : List LedgerEntry)
    (refresh_token : Token) (now : Int) (new_access_jti new_refresh_jti : String)
    (blacklist_write_fails : Bool) :
    Except AuthError (List LedgerEntry × Token × Token) :=
  match verify_refresh_token refresh_token now users ledger with
  | Except.error e => Except.error e
  | Except.ok user =>
    if !user.is_active then Except.error AuthError.Forbidden
    else
      let ledger2 := blacklist_token ledger refresh_token refresh_token.exp
        blacklist_write_fails
      let access := (create_access_token user.id now (30 * 60) new_access_jti).fst
      let refresh := (create_refresh_token user.id now (7 * 24 * 60 * 60) new_refresh_jti).fst
      Except.ok (ledger2, access, refresh)

/-- The shared persistent state the session engine touches. -/
structure Store where
  users : List User
  ledger : List LedgerEntry
deriving DecidableEq

/-- Models `UserService.logout_user` (`user_app_service.py` 62-100), with an
injected infrastructure-failure point:
`fail_at = some 0`: the `db.commit()` of the status change raises — the
`except` rolls the uncommitted change back and raises 500;
`fail_at = some 1`: `db.refresh(user)` raises after that commit — the
`except` calls `db.rollback()`, which cannot undo the committed status
change, and raises 500;
`fail_at = some 2` / `some 3`: the write inside the first/second
`blacklist_token` call raises — `blacklist_token` swallows it and logout
still returns success.
Returns the outcome together with the state the store is left in. -/
def logout_user (st : Store) (user_id : String) (access_token : Token)
    (access_expires_at : Int) (refresh_token : Option Token)
    (refresh_expires_at : Int) (fail_at : Option Nat) :
    Except AuthError Unit × Store :=
  if fail_at == some 0 then (Except.error AuthError.Unavailable, st)
  else
    let st1 : Store :=
      { st with users := (st.users.map
          (fun u => if u.id == user_id then { u with status := "inactive" } else u)) }
    if fail_at == some 1 then (Except.error AuthError.Unavailable, st1)
    else
      let st2 : Store :=
        { st1 with ledger := (blacklist_token st1.ledger access_token access_expires_at
            (fail_at == some 2)) }
      let st3 : Store :=
        match refresh_token with
        | some rt =>
          { st2 with ledger := (blacklist_token st2.ledger rt refresh_expires_at
              (fail_at == some 3)) }
        | none => st2
      (Except.ok (), st3)

/-! ## Helper lemmas -/

theorem overlapCond_iff (S E s e : Int) (hSE : S < E) (hse : s < e) :
    overlapCond S E s e = true ↔ (s < E ∧ S < e) := by
  simp only [overlapCond, Bool.or_eq_true, Bool.and_eq_true, decide_eq_true_eq]
  omega

theorem conflictsWith_none_iff (b : Booking) (sid : String) (s e : Int)
    (hse : s < e) (hb : b.start_time < b.end_time) :
    conflictsWith b sid s e none = true ↔
      (b.service_id = sid
        ∧ (b.status = BStatus.pending ∨ b.status = BStatus.confirmed)
        ∧ s < b.end_time ∧ b.start_time < e) := by
  simp only [conflictsWith, Bool.and_eq_true, Bool.or_eq_true, beq_iff_eq,
    Bool.and_true]
  rw [overlapCond_iff b.start_time b.end_time s e hb hse]
  tauto

theorem has_time_conflict_iff (bookings : List Booking) (sid : String) (s e : Int)
    (hse : s < e) (hwf : ∀ b ∈ bookings, b.start_time < b.end_time) :
    has_time_conflict bookings sid s e none = true ↔
      ∃ b ∈ bookings, b.service_id = sid
        ∧ (b.status = BStatus.pending ∨ b.status = BStatus.confirmed)
        ∧ s < b.end_time ∧ b.start_time < e := by
  simp only [has_time_conflict, List.any_eq_true]
  constructor
  · rintro ⟨b, hmem, hc⟩
    exact ⟨b, hmem, (conflictsWith_none_iff b sid s e hse (hwf b hmem)).1 hc⟩
  · rintro ⟨b, hmem, hc⟩
    exact ⟨b, hmem, (conflictsWith_none_iff b sid s e hse (hwf b hmem)).2 hc⟩

/-- The booking row `create_booking` persists when every check passes. -/
def newBooking (booking : BookingCreate) (user_id new_id : String)
    (created_at : Int) : Booking :=
  { id := new_id, user_id := user_id, service_id := booking.service_id,
    start_time := booking.start_time, end_time := booking.end_time,
    status := BStatus.pending, created_at := created_at }

theorem create_booking_reduces (now : Int) (services : List Service)
    (bookings : List Booking) (booking : BookingCreate) (user_id new_id : String)
    (created_at : Int)
    (h1 : now < booking.start_time) (h2 : booking.start_time < booking.end_time)
    (h3 : services.any (fun sv => sv.id == booking.service_id && sv.is_active) = true) :
    create_booking now services bookings booking user_id new_id created_at =
      (if has_time_conflict bookings booking.service_id booking.start_time
          booking.end_time none
       then Except.error BookingError.Conflict
       else Except.ok (bookings ++ [newBooking booking user_id new_id created_at],
              newBooking booking user_id new_id created_at)) := by
  simp [create_booking, start_time_must_be_in_future,
    end_time_must_be_after_start_time, h1, h2, h3, newBooking]

/-! ## Concrete rows used by witnesses and counterexamples -/

/-- A pending booking `[10,11)` on service `s1` owned by `u1`. -/
def bkA : Booking :=
  { id := "b1", user_id := "u1", service_id := "s1", start_time := 10, end_time := 11, status := BStatus.pending, created_at := 0 }

/-- An active service `s1`. -/
def svcS1 : Service := { id := "s1", is_active := true }

/-- The empty patch. -/
def noPatch : BookingUpdate := { start_time := none, end_time := none, status := none }

/-- The patch requesting `status := completed` and nothing else. -/
def completedPatch : BookingUpdate :=
  { start_time := none, end_time := none, status := some BStatus.completed }

/-- A back-to-back request `[11,12)` on service `s1`. -/
def reqC : BookingCreate := { service_id := "s1", start_time := 11, end_time := 12 }

/-- A request `[5,6)` on service `s1`. -/
def reqD : BookingCreate := { service_id := "s1", start_time := 5, end_time := 6 }

/-! ## Claims -/

/-- C1: the three-condition disjunction of `_has_time_conflict` is, for
well-formed windows, exactly half-open overlap; hence `create_booking`
(preconditions passing, existing rows well-formed) rejects with `Conflict`
exactly when an existing same-service booking with status pending or
confirmed overlaps `[start, end)`, and accepts every non-overlapping
request, including back-to-back windows. -/
theorem conflict_disjunction_iff_overlap (now : Int) (services : List Service)
    (bookings : List Booking) (req : BookingCreate) (user_id new_id : String)
    (created_at : Int)
    (hwf : ∀ b ∈ bookings, b.start_time < b.end_time)
    (hstart : now < req.start_time)
    (hend : req.start_time < req.end_time)
    (hsvc : services.any (fun sv => sv.id == req.service_id && sv.is_active) = true) :
    (∀ S E s e : Int, S < E → s < e →
        (overlapCond S E s e = true ↔ (s < E ∧ S < e)))
    ∧ (create_booking now services bookings req user_id new_id created_at
          = Except.error BookingError.Conflict
        ↔ ∃ b ∈ bookings, b.service_id = req.service_id
            ∧ (b.status = BStatus.pending ∨ b.status = BStatus.confirmed)
            ∧ req.start_time < b.end_time ∧ b.start_time < req.end_time)
    ∧ ((¬ ∃ b ∈ bookings, b.service_id = req.service_id
            ∧ (b.status = BStatus.pending ∨ b.status = BStatus.confirmed)
            ∧ req.start_time < b.end_time ∧ b.start_time < req.end_time)
        → create_booking now services bookings req user_id new_id created_at
            = Except.ok (bookings ++ [newBooking req user_id new_id created_at],
                newBooking req user_id new_id created_at)) := by
  have hred := create_booking_reduces now services bookings req user_id new_id
    created_at hstart hend hsvc
  have hcf := has_time_conflict_iff bookings req.service_id req.start_time
    req.end_time hend hwf
  refine ⟨fun S E s e hSE hse => overlapCond_iff S E s e hSE hse, ?_, ?_⟩
  · rw [hred]
    by_cases hc : has_time_conflict bookings req.service_id req.start_time
        req.end_time none = true
    · simp only [hc, if_true]
      exact iff_of_true trivial (hcf.1 hc)
    · simp only [Bool.not_eq_true] at hc
      simp only [hc, Bool.false_eq_true, if_false]
      constructor
      · intro h
        exact absurd h (by simp)
      · intro h
        exact absurd (hcf.2 h) (by simp [hc])
  · intro hno
    rw [hred]
    have : has_time_conflict bookings req.service_id req.start_time
        req.end_time none ≠ true := fun h => hno (hcf.1 h)
    simp only [Bool.not_eq_true] at this
    simp [this]

/-- C1 witness: with service `s1` active and one pending booking `[10,11)`,
a back-to-back request `[11,12)` is accepted. -/
theorem conflict_disjunction_iff_overlap_witness :
    create_booking 0 [svcS1] [bkA] reqC "u2" "b2" 5
    = Except.ok ([bkA] ++ [newBooking reqC "u2" "b2" 5], newBooking reqC "u2" "b2" 5) := by
  exact (conflict_disjunction_iff_overlap 0 [svcS1] [bkA] reqC "u2" "b2" 5
    (by decide) (by decide) (by decide) (by decide)).2.2 (by decide)

/-- C3 (evaluation at the failing input): a non-admin owner patching
`status := completed` on their own `pending` booking is accepted by
`update_booking` — the status is written and the call returns the updated
row — where the spec requires rejection with `InvalidTransition`. -/
theorem nonadmin_completed_accepted :
    update_booking [bkA] "b1" completedPatch (some "u1") false
    = Except.ok ([{ bkA with status := BStatus.completed }],
        { bkA with status := BStatus.completed }) := by
  rfl

/-- C8: `create_booking` rejects with `InvalidInterval` whenever
`end <= start` or `start` is not strictly in the future, rejects with
`NotFound` whenever (the interval being valid) no active service matches,
and when every precondition holds and no conflict exists it persists
exactly one new row with status `pending`. -/
theorem create_booking_preconditions (now : Int) (services : List Service)
    (bookings : List Booking) (req : BookingCreate) (user_id new_id : String)
    (created_at : Int) :
    ((req.end_time ≤ req.start_time ∨ req.start_time ≤ now) →
        create_booking now services bookings req user_id new_id created_at
          = Except.error BookingError.InvalidInterval)
    ∧ ((now < req.start_time ∧ req.start_time < req.end_time
        ∧ services.any (fun sv => sv.id == req.service_id && sv.is_active) = false) →
        create_booking now services bookings req user_id new_id created_at
          = Except.error BookingError.NotFound)
    ∧ ((now < req.start_time ∧ req.start_time < req.end_time
        ∧ services.any (fun sv => sv.id == req.service_id && sv.is_active) = true
        ∧ has_time_conflict bookings req.service_id req.start_time
            req.end_time none = false) →
        create_booking now services bookings req user_id new_id created_at
          = Except.ok (bookings ++ [newBooking req user_id new_id created_at],
              newBooking req user_id new_id created_at)
          ∧ (newBooking req user_id new_id created_at).status = BStatus.pending) := by
  refine ⟨?_, ?_, ?_⟩
  · rintro (h | h)
    · by_cases hs : now < req.start_time
      · have h2 : ¬ (req.start_time < req.end_time) := by omega
        simp [create_booking, start_time_must_be_in_future,
          end_time_must_be_after_start_time, hs, h2]
      · simp [create_booking, start_time_must_be_in_future, hs]
    · have hs : ¬ (now < req.start_time) := by omega
      simp [create_booking, start_time_must_be_in_future, hs]
  · rintro ⟨h1, h2, h3⟩
    simp [create_booking, start_time_must_be_in_future,
      end_time_must_be_after_start_time, h1, h2, h3]
  · rintro ⟨h1, h2, h3, h4⟩
    rw [create_booking_reduces now services bookings req user_id new_id
      created_at h1 h2 h3]
    exact ⟨by simp [h4], rfl⟩

/-- C8 witness: the three cases at concrete inputs — a past start is
`InvalidInterval`, a valid interval on a missing service is `NotFound`, and
a clean request on an active empty service is persisted as `pending`. -/
theorem create_booking_preconditions_witness :
    (create_booking 10 [] [] reqD "u1" "b1" 0 = Except.error BookingError.InvalidInterval)
    ∧ (create_booking 0 [] [] reqD "u1" "b1" 0 = Except.error BookingError.NotFound)
    ∧ (create_booking 0 [svcS1] [] reqD "u1" "b1" 0
        = Except.ok ([] ++ [newBooking reqD "u1" "b1" 0], newBooking reqD "u1" "b1" 0)) := by
  refine ⟨?_, ?_, ?_⟩
  · exact (create_booking_preconditions 10 [] [] reqD "u1" "b1" 0).1 (Or.inr (by decide))
  · exact (create_booking_preconditions 0 [] [] reqD "u1" "b1" 0).2.1
      ⟨by decide, by decide, by decide⟩
  · exact ((create_booking_preconditions 0 [svcS1] [] reqD "u1" "b1" 0).2.2
      ⟨by decide, by decide, by decide, by decide⟩).1

/-- C10: a successful `update_booking` leaves `id`, `user_id`, `service_id`
and `created_at` of the updated row unchanged, and every patch field that is
absent or null leaves the corresponding field at its previous value. -/
theorem update_booking_frame (bookings : List Booking) (booking_id : String)
    (upd : BookingUpdate) (user_id : Option String) (is_admin : Bool)
    (table2 : List Booking) (updated : Booking)
    (h : update_booking bookings booking_id upd user_id is_admin
        = Except.ok (table2, updated)) :
    ∃ b, bookings.find? (fun x => x.id == booking_id) = some b
      ∧ updated.id = b.id ∧ updated.user_id = b.user_id
      ∧ updated.service_id = b.service_id ∧ updated.created_at = b.created_at
      ∧ (upd.start_time = none → updated.start_time = b.start_time)
      ∧ (upd.end_time = none → updated.end_time = b.end_time)
      ∧ (upd.status = none → updated.status = b.status) := by
  unfold update_booking at h
  cases hfind : bookings.find? (fun x => x.id == booking_id) with
  | none =>
    rw [hfind] at h
    exact absurd h (by simp)
  | some b =>
    rw [hfind] at h
    refine ⟨b, rfl, ?_⟩
    dsimp only at h
    split at h
    · exact absurd h (by simp)
    split at h
    · exact absurd h (by simp)
    split at h
    · exact absurd h (by simp)
    split at h
    · exact absurd h (by simp)
    · simp only [Except.ok.injEq, Prod.mk.injEq] at h
      obtain ⟨-, hupd⟩ := h
      subst hupd
      refine ⟨rfl, rfl, rfl, rfl, ?_, ?_, ?_⟩
      · intro hnone
        simp [hnone]
      · intro hnone
        simp [hnone]
      · intro hnone
        simp [hnone]

/-- C10 witness: an empty patch on an owned pending booking succeeds and the
frame conditions hold for it. -/
theorem update_booking_frame_witness :
    ∃ b, ([bkA] : List Booking).find? (fun x => x.id == "b1") = some b
      ∧ bkA.id = b.id ∧ bkA.user_id = b.user_id
      ∧ bkA.service_id = b.service_id ∧ bkA.created_at = b.created_at
      ∧ (noPatch.start_time = none → bkA.start_time = b.start_time)
      ∧ (noPatch.end_time = none → bkA.end_time = b.end_time)
      ∧ (noPatch.status = none → bkA.status = b.status) := by
  exact update_booking_frame [bkA] "b1" noPatch (some "u1") false [bkA] bkA rfl

/-- C6: revocation is idempotent — blacklisting the same token a second
time (with any expiry argument) is a no-op that leaves the ledger exactly
as one revocation left it, and, the result being a ledger and not an
error, the second call completes without error. -/
theorem revoke_idempotent (ledger : List LedgerEntry) (t : Token) (e e2 : Int) :
    blacklist_token (blacklist_token ledger t e false) t e2 false
      = blacklist_token ledger t e false := by
  cases hj : t.jti with
  | none => simp [blacklist_token, hj]
  | some j =>
    by_cases hmem : ledger.any (fun x => x.jti == j) = true
    · simp [blacklist_token, hj, hmem]
    · simp only [Bool.not_eq_true] at hmem
      simp [blacklist_token, hj, hmem, List.any_append]

/-- C7: `cleanup_expired_tokens` keeps exactly the ledger entries with
`expires_at > now` (so it deletes exactly those with `expires_at <= now`),
and it never changes the outcome of a revocation check: for every jti the
check at time `now` is the same before and after the purge. -/
theorem purge_exact_and_check_invariant (ledger : List LedgerEntry) (now : Int) :
    (∀ e : LedgerEntry, e ∈ (cleanup_expired_tokens ledger now).fst
        ↔ (e ∈ ledger ∧ now < e.expires_at))
    ∧ (∀ jti : String,
        is_token_blacklisted (cleanup_expired_tokens ledger now).fst jti now
          = is_token_blacklisted ledger jti now) := by
  constructor
  · intro e
    simp only [cleanup_expired_tokens, List.mem_filter, Bool.not_eq_true',
      decide_eq_false_iff_not, not_le]
  · intro jti
    rw [Bool.eq_iff_iff]
    simp only [cleanup_expired_tokens, is_token_blacklisted, List.any_eq_true,
      List.mem_filter, Bool.and_eq_true, beq_iff_eq, decide_eq_true_eq,
      Bool.not_eq_true', decide_eq_false_iff_not, not_le]
    constructor
    · rintro ⟨e, ⟨hmem, -⟩, hje, hlt⟩
      exact ⟨e, hmem, hje, hlt⟩
    · rintro ⟨e, hmem, hje, hlt⟩
      exact ⟨e, ⟨hmem, hlt⟩, hje, hlt⟩

/-- Inversion of a successful `verify_refresh_token`: the token is signed,
unexpired, of type `refresh`, carries `sub` and an unrevoked `jti`, and the
returned user is active. -/
theorem verify_refresh_token_ok_inv (r : Token) (now : Int) (users : List User)
    (ledger : List LedgerEntry) (user : User)
    (hv : verify_refresh_token r now users ledger = Except.ok user) :
    r.sig_ok = true ∧ now < r.exp ∧ r.typ = "refresh"
      ∧ (∃ uid, r.sub = some uid ∧ user.id = uid)
      ∧ (∀ j, r.jti = some j → is_token_blacklisted ledger j now = false)
      ∧ r.jti.isSome = true ∧ user.is_active = true := by
  unfold verify_refresh_token at hv
  split at hv
  next hd => exact absurd hv (by simp)
  next payload hd =>
    have hdec : (r.sig_ok && decide (now < r.exp)) = true ∧ payload = r := by
      unfold jwt_decode at hd
      split at hd
      · exact ⟨by assumption, (Option.some.inj hd).symm⟩
      · exact absurd hd (by simp)
    obtain ⟨hc, hpr⟩ := hdec
    subst hpr
    rw [Bool.and_eq_true, decide_eq_true_eq] at hc
    split at hv
    next uid j hs hj =>
      split at hv
      next hty => exact absurd hv (by simp)
      next hty =>
        split at hv
        next hbl => exact absurd hv (by simp)
        next hbl =>
          cases hf : users.find? (fun u => u.id == uid && u.is_active) with
          | none =>
            rw [hf] at hv
            exact absurd hv (by simp)
          | some u2 =>
            rw [hf] at hv
            have hu2 : u2 = user := by simpa using hv
            subst hu2
            have hty2 : payload.typ = "refresh" := by
              by_contra hne
              exact hty (by simp [bne_iff_ne, hne])
            have hfp := List.find?_some hf
            rw [Bool.and_eq_true, beq_iff_eq] at hfp
            refine ⟨hc.1, hc.2, hty2, ⟨uid, hs, hfp.1⟩, ?_, by simp [hj], hfp.2⟩
            intro j2 hj2
            rw [hj] at hj2
            cases Option.some.inj hj2
            simpa using hbl
    all_goals exact absurd hv (by simp)

/-- When the jti of the token is fresh for the ledger, `blacklist_token` appends
exactly one entry carrying that jti and the supplied expiry. -/
theorem blacklist_token_fresh (ledger : List LedgerEntry) (t : Token) (e : Int)
    (j : String) (hj : t.jti = some j) (hfresh : ∀ x ∈ ledger, x.jti ≠ j) :
    blacklist_token ledger t e false
      = ledger ++ [{ jti := j, token := t, expires_at := e }] := by
  have hany : ledger.any (fun x => x.jti == j) = false := by
    rw [List.any_eq_false]
    intro x hx
    simp [hfresh x hx]
  simp [blacklist_token, hj, hany]

/-- With the store write failing, `blacklist_token` swallows the exception
and leaves the ledger unchanged. -/
theorem blacklist_token_fail (ledger : List LedgerEntry) (t : Token) (e : Int) :
    blacklist_token ledger t e true = ledger := by
  cases hj : t.jti with
  | none => simp [blacklist_token, hj]
  | some j =>
    by_cases hmem : ledger.any (fun x => x.jti == j) = true
    · simp [blacklist_token, hj, hmem]
    · simp only [Bool.not_eq_true] at hmem
      simp [blacklist_token, hj, hmem]

/-- An active user of the concrete session scenarios. -/
def uA : User := { id := "u1", is_active := true, status := "active", role := "user" }

/-- A signed refresh token for `u1`, jti `rj`, expiring at 100. -/
def rTok : Token :=
  { sub := some "u1", jti := some "rj", iat := 0, exp := 100, typ := "refresh", sig_ok := true }

/-- A signed access token for `u1`, jti `aj`, expiring at 100. -/
def aTok : Token :=
  { sub := some "u1", jti := some "aj", iat := 0, exp := 100, typ := "access", sig_ok := true }

/-- C2: a successful rotation records the jti of the presented refresh
token in the ledger under the expiry of that same token; any later verification or rotation
of the same token before its expiry fails with `Revoked` — rotation is
single-use.  (The jti is uuid4-fresh, modelled by `hfresh`.) -/
theorem rotation_single_use (users : List User) (ledger : List LedgerEntry)
    (r : Token) (now : Int) (ja jr : String) (j : String)
    (ledger2 : List LedgerEntry) (a2 r2 : Token)
    (hj : r.jti = some j)
    (hfresh : ∀ x ∈ ledger, x.jti ≠ j)
    (hok : refresh_access_token users ledger r now ja jr false
        = Except.ok (ledger2, a2, r2))
    (now2 : Int) (hnow2 : now2 < r.exp)
    (users2 : List User) (ja2 jr2 : String) :
    (∃ x ∈ ledger2, x.jti = j ∧ x.expires_at = r.exp)
    ∧ verify_refresh_token r now2 users2 ledger2 = Except.error AuthError.Revoked
    ∧ refresh_access_token users2 ledger2 r now2 ja2 jr2 false
        = Except.error AuthError.Revoked := by
  unfold refresh_access_token at hok
  cases hv : verify_refresh_token r now users ledger with
  | error e =>
    rw [hv] at hok
    exact absurd hok (by simp)
  | ok user =>
    rw [hv] at hok
    obtain ⟨hsig, hexp, hty, ⟨uid, hsub, huid⟩, hbl, hjs, hact⟩ :=
      verify_refresh_token_ok_inv r now users ledger user hv
    simp only [hact, Bool.not_true, Bool.false_eq_true, if_false, ite_false] at hok
    have hpair := Except.ok.inj hok
    have hfst : blacklist_token ledger r r.exp false = ledger2 :=
      congrArg Prod.fst hpair
    have hl2 : ledger2 = ledger ++ [{ jti := j, token := r, expires_at := r.exp }] := by
      rw [← hfst, blacklist_token_fresh ledger r r.exp j hj hfresh]
    subst hl2
    have hdec : jwt_decode r now2 = some r := by
      simp [jwt_decode, hsig, hnow2]
    have hblt : is_token_blacklisted
        (ledger ++ [{ jti := j, token := r, expires_at := r.exp }]) j now2 = true := by
      simp [is_token_blacklisted, List.any_append, hnow2]
    have hver : verify_refresh_token r now2 users2
        (ledger ++ [{ jti := j, token := r, expires_at := r.exp }])
        = Except.error AuthError.Revoked := by
      simp [verify_refresh_token, hdec, hsub, hj, hty, hblt]
    refine ⟨⟨{ jti := j, token := r, expires_at := r.exp }, by simp, rfl, rfl⟩, hver, ?_⟩
    simp [refresh_access_token, hver]

/-- C2 witness: rotating `rTok` once at time 0 succeeds; re-verifying it at
time 50 against the resulting ledger fails with `Revoked`. -/
theorem rotation_single_use_witness :
    verify_refresh_token rTok 50 [uA] [{ jti := "rj", token := rTok, expires_at := 100 }]
      = Except.error AuthError.Revoked := by
  exact (rotation_single_use [uA] [] rTok 0 "a1" "r1" "rj"
    [{ jti := "rj", token := rTok, expires_at := 100 }]
    { sub := some "u1", jti := some "a1", iat := 0, exp := 1800, typ := "access", sig_ok := true }
    { sub := some "u1", jti := some "r1", iat := 0, exp := 604800, typ := "refresh", sig_ok := true }
    rfl (by simp) rfl 50 (by decide) [uA] "a2" "r2").2.1

/-- C5: verifying the access token issued for subject `u` (before its
expiry, with `u` resolving to an active user, the fresh jti not yet in the
ledger) returns that user, whose id is `u`; after revoking the token
(ledger insert keyed by its jti and its own expiry), the same verification
fails with `Revoked`. -/
theorem access_token_roundtrip (u jti : String) (now ttl now2 : Int)
    (users : List User) (ledger : List LedgerEntry) (user : User)
    (hfind : users.find? (fun x => x.id == u && x.is_active) = some user)
    (hfresh : ∀ x ∈ ledger, x.jti ≠ jti)
    (h2 : now2 < now + ttl) :
    get_current_user (create_access_token u now ttl jti).fst now2 users ledger
        = Except.ok user
    ∧ user.id = u
    ∧ get_current_user (create_access_token u now ttl jti).fst now2 users
        (blacklist_token ledger (create_access_token u now ttl jti).fst
          (create_access_token u now ttl jti).snd false)
        = Except.error AuthError.Revoked := by
  have hdec : jwt_decode (create_access_token u now ttl jti).fst now2
      = some (create_access_token u now ttl jti).fst := by
    simp [jwt_decode, create_access_token, h2]
  have hbl0 : is_token_blacklisted ledger jti now2 = false := by
    rw [is_token_blacklisted, List.any_eq_false]
    intro x hx
    simp [hfresh x hx]
  have hl2 : blacklist_token ledger (create_access_token u now ttl jti).fst
      (create_access_token u now ttl jti).snd false
      = ledger ++ [{ jti := jti, token := (create_access_token u now ttl jti).fst, expires_at := now + ttl }] :=
    blacklist_token_fresh ledger (create_access_token u now ttl jti).fst
      (now + ttl) jti rfl hfresh
  have hbl1 : is_token_blacklisted
      (ledger ++ [{ jti := jti, token := (create_access_token u now ttl jti).fst, expires_at := now + ttl }])
      jti now2 = true := by
    simp [is_token_blacklisted, List.any_append, h2]
  have hfp := List.find?_some hfind
  rw [Bool.and_eq_true, beq_iff_eq] at hfp
  simp only [create_access_token] at hdec hl2 hbl1
  refine ⟨?_, hfp.1, ?_⟩
  · simp only [create_access_token]
    simp [get_current_user, hdec, hbl0, hfind]
  · simp only [create_access_token]
    rw [hl2]
    simp [get_current_user, hdec, hbl1]

/-- C5 witness: the round trip at concrete inputs — issue for `u1` at time
0 with TTL 100 and jti `aj`, verify at time 50, then revoke and verify
again. -/
theorem access_token_roundtrip_witness :
    get_current_user (create_access_token "u1" 0 100 "aj").fst 50 [uA] []
        = Except.ok uA
    ∧ uA.id = "u1"
    ∧ get_current_user (create_access_token "u1" 0 100 "aj").fst 50 [uA]
        (blacklist_token [] (create_access_token "u1" 0 100 "aj").fst
          (create_access_token "u1" 0 100 "aj").snd false)
        = Except.error AuthError.Revoked := by
  exact access_token_roundtrip "u1" "aj" 0 100 50 [uA] [] uA rfl (by simp) (by decide)

/-- C9: `blacklist_token` is total toward its caller — with no jti claim it
returns leaving the ledger unchanged, and a decode/write error is swallowed
likewise; consequently a rotation whose ledger insert fails still reports
success (with no revocation entry written), and a logout whose ledger
insert fails still reports success with the ledger unchanged. -/
theorem blacklist_never_raises (ledger : List LedgerEntry) (t : Token) (e : Int)
    (users : List User) (r : Token) (now : Int) (ja jr : String) (user : User)
    (st : Store) (uid : String) (a : Token) (ae re : Int)
    (hv : verify_refresh_token r now users ledger = Except.ok user) :
    (t.jti = none → ∀ wf : Bool, blacklist_token ledger t e wf = ledger)
    ∧ blacklist_token ledger t e true = ledger
    ∧ refresh_access_token users ledger r now ja jr true
        = Except.ok (ledger, (create_access_token user.id now (30 * 60) ja).fst,
            (create_refresh_token user.id now (7 * 24 * 60 * 60) jr).fst)
    ∧ (logout_user st uid a ae none re (some 2)).fst = Except.ok ()
    ∧ (logout_user st uid a ae none re (some 2)).snd.ledger = st.ledger := by
  obtain ⟨hsig, hexp, hty, ⟨uid2, hsub, huid⟩, hbl, hjs, hact⟩ :=
    verify_refresh_token_ok_inv r now users ledger user hv
  refine ⟨?_, blacklist_token_fail ledger t e, ?_, rfl, ?_⟩
  · intro hn wf
    simp [blacklist_token, hn]
  · unfold refresh_access_token
    rw [hv]
    simp [hact, blacklist_token_fail]
  · have hred : (logout_user st uid a ae none re (some 2)).snd.ledger
        = blacklist_token st.ledger a ae true := rfl
    rw [hred, blacklist_token_fail]

/-- C9 witness: a rotation of `rTok` whose ledger write fails still reports
success and writes nothing. -/
theorem blacklist_never_raises_witness :
    refresh_access_token [uA] [] rTok 0 "a1" "r1" true
      = Except.ok ([],
          (create_access_token uA.id 0 (30 * 60) "a1").fst,
          (create_refresh_token uA.id 0 (7 * 24 * 60 * 60) "r1").fst) := by
  exact (blacklist_never_raises [] aTok 5 [uA] rTok 0 "a1" "r1" uA
    { users := [uA], ledger := [] } "u1" aTok 100 0 rfl).2.2.1

/-- C4 counterexample: logout on a one-user store, with an infrastructure
failure injected in the step right after the user-status commit
(`db.refresh`), terminates with an error while the store differs from the
pre-call store — the committed status change survives the rollback. -/
theorem logout_error_partial_cex :
    (logout_user { users := [uA], ledger := [] } "u1" aTok 100 none 0 (some 1)).fst
        = Except.error AuthError.Unavailable
    ∧ (logout_user { users := [uA], ledger := [] } "u1" aTok 100 none 0 (some 1)).snd
        ≠ { users := [uA], ledger := [] } := by
  exact ⟨rfl, by decide⟩

/-- C4 amended: an error raised at the first commit leaves the store
unchanged (the rollback undoes the uncommitted write), but logout commits
the user-status change before its remaining steps, so an error raised just
after that commit surfaces to the caller while the status change persists —
logout is not all-or-nothing. -/
theorem logout_commit_boundary (st : Store) (uid : String) (a : Token) (ae : Int)
    (rt : Option Token) (re : Int) :
    logout_user st uid a ae rt re (some 0) = (Except.error AuthError.Unavailable, st)
    ∧ logout_user st uid a ae rt re (some 1)
        = (Except.error AuthError.Unavailable,
           { st with users := (st.users.map
              (fun u => if u.id == uid then { u with status := "inactive" } else u)) }) := by
  exact ⟨rfl, rfl⟩

end BookIT
